import Mathlib

/-!
Shallow embedding of `plugins/modules/azure_rm_keyvaultsecret.py`.

The module reconciles a single Azure Key Vault secret: it reads the current
secret, decides whether a change is needed, and (outside check mode) performs
at most one remote write (set-secret or delete-secret).  The embedding models
one invocation of `AzureRMKeyVaultSecret.exec_module` over the remote state of
the one secret named by the spec, together with the credential-resolution
logic of `get_keyvault_client` and its `auth_callback`.

External collaborators are modelled as parameters: the permissive date parser
`dateutil.parser.parse` is an arbitrary function `String → Option Nat`
(`none` = the parser raises), and the remote read outcome is either a secret
bundle or a Python exception.  Machine-level concerns (HTTP, server-assigned
version strings) are outside the module's code; the secret identifier is
modelled as the vault URI joined with the secret name, since the module only
ever passes it through opaquely.
-/

/-- The declared module parameters of `AzureRMKeyVaultSecret.__init__`
(`module_arg_spec` plus the `tags` handled by the base class).  Optional
string parameters are `Option String` (Python `None` = `none`); `state` is a
string with declared choices `present`/`absent`. -/
structure SecretSpec where
  secretName : String
  secretValue : Option String
  secretValidFrom : Option String
  secretExpiry : Option String
  keyvaultUri : String
  state : String
  contentType : Option String
  tags : List (String × String)
deriving DecidableEq

/-- Python exceptions that the reconciliation path can see.
`keyVaultError` is the class `KeyVaultErrorException` raised by the vault SDK
for service-reported failures; its `notFound` flag records whether the
service condition was a missing secret (HTTP 404) or some other service
error (for example an authorization failure).  `valueError` is the
`ValueError` family raised by `dateutil.parser.parse`; `other` is any other
exception. -/
inductive PyExc where
  | keyVaultError (notFound : Bool)
  | valueError (msg : String)
  | other (msg : String)
deriving DecidableEq

/-- The fields of a fetched secret bundle that `get_secret` consumes:
`secret_bundle.id` parsed to a secret identifier, and `secret_bundle.value`. -/
structure SecretBundleRecord where
  secretId : String
  secretValue : String
deriving DecidableEq

/-- Outcome of the remote read `self.get_secret(self.secret_name)`:
either a record or a raised exception. -/
inductive ReadOutcome where
  | ok (r : SecretBundleRecord)
  | exc (e : PyExc)
deriving DecidableEq

/-- The `results` dictionary built by `exec_module` and returned as
`self.results['state']`.  Keys that may be present: `secret_id`,
`secret_value` (set by `get_secret`), `status` (set on the write / check-mode
paths). -/
structure StateDict where
  secretId : Option String
  secretValue : Option String
  status : Option String
deriving DecidableEq

/-- The value returned by `exec_module`: `self.results` with its `changed`
flag and `state` dictionary. -/
structure ModuleResult where
  changed : Bool
  state : StateDict
deriving DecidableEq

/-- A remote write call issued by the module, with the arguments the module
passes (`create_update_secret` forwards to `client.set_secret`,
`delete_secret` to `client.delete_secret`).  `validFrom`/`expiry` carry the
parsed `SecretAttributes` timestamps. -/
inductive WriteCall where
  | setSecret (uri name : String) (value : Option String)
      (tags : List (String × String)) (contentType : Option String)
      (validFrom expiry : Option Nat)
  | deleteSecret (uri name : String)
deriving DecidableEq

/-- Observable outcome of one completed invocation: the returned result, the
remote state of the secret after the invocation, and the list of remote
write calls issued. -/
structure ExecOut where
  result : ModuleResult
  vault : Option String
  writes : List WriteCall
deriving DecidableEq

/-- `KeyVaultId.parse_secret_id(bundle.id).id`: the module treats the
identifier opaquely, so it is modelled as the vault URI joined with the
secret path. -/
def mkSecretId (uri name : String) : String :=
  uri ++ "secrets/" ++ name

/-- The `try` block of `exec_module` (lines 156-168): read the secret and
compute `changed`.  The `except KeyVaultErrorException` clause catches that
class only, whatever service condition it reports; any other exception
propagates.  On the found path, the value-difference test is guarded by the
truthiness test `self.secret_value and ...`, so a `None` or empty-string
spec value skips the comparison. -/
def readBranch (spec : SecretSpec) (read : ReadOutcome) :
    Except PyExc (StateDict × Bool) :=
  match read with
  | .ok r =>
    let results : StateDict :=
      { secretId := some r.secretId, secretValue := some r.secretValue,
        status := none }
    if spec.state == "absent" then
      .ok (results, true)
    else
      match spec.secretValue with
      | some sv =>
        if sv != "" && r.secretValue != sv then .ok (results, true)
        else .ok (results, false)
      | none => .ok (results, false)
  | .exc e =>
    match e with
    | .keyVaultError _ =>
      .ok ({ secretId := none, secretValue := none, status := none },
           spec.state == "present")
    | e => .error e

/-- Lines 173-179 of `exec_module`, for one of `secret_valid_from` /
`secret_expiry`: a non-`None`, non-empty string is handed to
`dateutil.parser.parse`, whose failure (a raised `ValueError`) propagates;
a `None` or empty value is passed along unparsed (modelled as no
timestamp). -/
def parseDateField (dparse : String → Option Nat) (field : Option String) :
    Except PyExc (Option Nat) :=
  match field with
  | none => .ok none
  | some s =>
    if s == "" then .ok none
    else
      match dparse s with
      | some d => .ok (some d)
      | none => .error (.valueError s)

/-- True when the module's date handling raises on this field: a non-empty
string the parser rejects. -/
def badDate (dparse : String → Option Nat) (field : Option String) : Bool :=
  match field with
  | none => false
  | some s => s != "" && (dparse s).isNone

/-- Lines 181-196 of `exec_module`: outside check mode, a changed
present-spec calls `create_update_secret` (storing the spec value and adding
`secret_id` and `status = Created` to the state), a changed absent-spec
calls `delete_secret`; in check mode only the prospective `status` label is
set and no write is issued. -/
def writePhase (spec : SecretSpec) (results : StateDict) (changed : Bool)
    (vault : Option String) (checkMode : Bool)
    (validFrom expiry : Option Nat) : ExecOut :=
  if !checkMode then
    if spec.state == "present" && changed then
      { result :=
          { changed := changed,
            state :=
              { results with
                secretId := some (mkSecretId spec.keyvaultUri spec.secretName),
                status := some "Created" } },
        vault := some (spec.secretValue.getD ""),
        writes := [.setSecret spec.keyvaultUri spec.secretName
                     spec.secretValue spec.tags spec.contentType
                     validFrom expiry] }
    else if spec.state == "absent" && changed then
      { result :=
          { changed := changed,
            state :=
              { results with
                secretId := some (mkSecretId spec.keyvaultUri spec.secretName),
                status := some "Deleted" } },
        vault := none,
        writes := [.deleteSecret spec.keyvaultUri spec.secretName] }
    else
      { result := { changed := changed, state := results },
        vault := vault, writes := [] }
  else
    if spec.state == "present" && changed then
      { result :=
          { changed := changed, state := { results with status := some "Created" } },
        vault := vault, writes := [] }
    else if spec.state == "absent" && changed then
      { result :=
          { changed := changed, state := { results with status := some "Deleted" } },
        vault := vault, writes := [] }
    else
      { result := { changed := changed, state := results },
        vault := vault, writes := [] }

/-- One invocation of `exec_module` given an explicit read outcome: the
try/except read, then the unconditional date parsing of `secret_valid_from`
and `secret_expiry`, then the write / check-mode phase. -/
def execCore (dparse : String → Option Nat) (spec : SecretSpec)
    (read : ReadOutcome) (vault : Option String) (checkMode : Bool) :
    Except PyExc ExecOut :=
  match readBranch spec read with
  | .error e => .error e
  | .ok (results, changed) =>
    match parseDateField dparse spec.secretValidFrom with
    | .error e => .error e
    | .ok validFrom =>
      match parseDateField dparse spec.secretExpiry with
      | .error e => .error e
      | .ok expiry =>
        .ok (writePhase spec results changed vault checkMode validFrom expiry)

/-- The read outcome produced by a healthy vault holding `vault` as the
stored value of the spec's secret (or nothing): `get_secret` returns the
bundle when the secret exists and raises the not-found
`KeyVaultErrorException` when it does not. -/
def readVault (spec : SecretSpec) (vault : Option String) : ReadOutcome :=
  match vault with
  | some w =>
    .ok { secretId := mkSecretId spec.keyvaultUri spec.secretName,
          secretValue := w }
  | none => .exc (.keyVaultError true)

/-- One invocation of `exec_module` against a healthy vault: read outcome
derived from the remote state. -/
def exec_module (dparse : String → Option Nat) (spec : SecretSpec)
    (vault : Option String) (checkMode : Bool) : Except PyExc ExecOut :=
  execCore dparse spec (readVault spec vault) vault checkMode

/-- The `changed` flag `exec_module` computes against a healthy vault
(lines 156-168 specialised to the found / not-found outcomes). -/
def moduleChanged (spec : SecretSpec) (vault : Option String) : Bool :=
  match vault with
  | some w =>
    if spec.state == "absent" then true
    else
      match spec.secretValue with
      | some sv => sv != "" && w != sv
      | none => false
  | none => spec.state == "present"

/-- The `state` dictionary as it stands after the try/except read against a
healthy vault, before the write phase. -/
def happyDict (spec : SecretSpec) (vault : Option String) : StateDict :=
  match vault with
  | some w =>
    { secretId := some (mkSecretId spec.keyvaultUri spec.secretName),
      secretValue := some w, status := none }
  | none => { secretId := none, secretValue := none, status := none }

/-- `True` branch discriminator for `Except` results. -/
def isError : Except PyExc ExecOut → Bool
  | .error _ => true
  | .ok _ => false

/-- Projection: the `secret_value` entry of the returned state, when the
invocation completed. -/
def stateValueOf : Except PyExc ExecOut → Option (Option String)
  | .ok er => some er.result.state.secretValue
  | .error _ => none

/-- Projection: the returned `changed` flag, when the invocation
completed. -/
def changedFlagOf : Except PyExc ExecOut → Option Bool
  | .ok er => some er.result.changed
  | .error _ => none

/-!  Credential resolution: `get_keyvault_client` and `auth_callback`. -/

/-- Which credential mechanism `get_keyvault_client` ends up building the
`KeyVaultClient` from. -/
inductive ResolvedCred where
  | msiCred
  | cliCred
  | callbackCred
deriving DecidableEq

/-- `get_keyvault_client` (lines 200-239): the MSI branch runs only under
`auth_source == 'msi'` and swallows any failure; the CLI-profile branch runs
only under `auth_source in ['auto', 'cli']` and swallows any failure; in
every remaining case the function returns the callback-credential client.
`msiOk` / `cliOk` say whether the respective acquisition attempt succeeds. -/
def get_keyvault_client (authSource : String) (msiOk cliOk : Bool) :
    ResolvedCred :=
  if authSource == "msi" then
    if msiOk then .msiCred else .callbackCred
  else if authSource == "auto" || authSource == "cli" then
    if cliOk then .cliCred else .callbackCred
  else .callbackCred

/-- The explicit credential fields the module reads from
`self.credentials`. -/
structure AzureCredentials where
  clientId : Option String
  secret : Option String
  tenant : Option String
deriving DecidableEq

/-- The `ServicePrincipalCredentials` arguments `auth_callback` builds. -/
structure SPCred where
  clientId : String
  secret : String
  tenant : String
deriving DecidableEq

/-- `auth_callback` (lines 221-237): fails when `client_id` or `secret` is
`None`; otherwise builds the service-principal credential, defaulting the
tenant to `"common"` when the configured tenant is falsy (`None` or the
empty string). -/
def auth_callback (creds : AzureCredentials) : Except String SPCred :=
  match creds.clientId, creds.secret with
  | some cid, some sec =>
    let tenant :=
      match creds.tenant with
      | some t => if t == "" then "common" else t
      | none => "common"
    .ok { clientId := cid, secret := sec, tenant := tenant }
  | _, _ =>
    .error "Please specify client_id, secret and tenant to access azure Key Vault."

/-! ## Specification-side definitions and concrete instances -/

/-- Python truthiness of an optional string parameter: `None` and the empty
string are falsy. -/
def pyTruthy : Option String → Bool
  | none => false
  | some s => s != ""

/-- The `changed` formula exactly as the specification states it: remote
absent with presence=present, or found with presence=absent, or found with
presence=present and a fetched value differing from the spec value; false
otherwise.  Written from the spec's words, to be compared with
`moduleChanged`. -/
def claimChanged (spec : SecretSpec) (vault : Option String) : Bool :=
  match vault with
  | none => spec.state == "present"
  | some w =>
    spec.state == "absent" ||
      (spec.state == "present" && w != spec.secretValue.getD "")

/-- The amended `changed` formula: as `claimChanged`, but the
value-difference disjunct additionally requires the supplied value to be
truthy (non-`None` and non-empty), matching the `self.secret_value and ...`
guard in the code. -/
def claimChangedTruthy (spec : SecretSpec) (vault : Option String) : Bool :=
  match vault with
  | none => spec.state == "present"
  | some w =>
    spec.state == "absent" ||
      (spec.state == "present" && pyTruthy spec.secretValue &&
        w != spec.secretValue.getD "")

/-- The credential chain exactly as the specification's claim describes it
for `authSource = "msi"`: MSI first, then on MSI failure the CLI profile,
then on CLI failure the explicit callback credential.  Written from the
spec's words, to be compared with `get_keyvault_client`. -/
def claimResolveMsi (msiOk cliOk : Bool) : ResolvedCred :=
  if msiOk then .msiCred
  else if cliOk then .cliCred
  else .callbackCred

/-- A discriminator for resolver outcomes of `auth_callback`. -/
def authFails : Except String SPCred → Bool
  | .error _ => true
  | .ok _ => false

/-- A date parser that accepts every string (concrete instance for
witnesses). -/
def dparseAll : String → Option Nat := fun s => some s.length

/-- A date parser that rejects every string (concrete instance for
counterexamples). -/
def dparseFail : String → Option Nat := fun _ => none

/-- Concrete spec: ensure `MySecret` is present with an empty-string
value. -/
def specEmptyVal : SecretSpec :=
  { secretName := "MySecret", secretValue := some "",
    secretValidFrom := none, secretExpiry := none,
    keyvaultUri := "https://contoso.vault.azure.net/", state := "present",
    contentType := none, tags := [] }

/-- Concrete spec: ensure `MySecret` is present with value
`My_Pass_Sec`. -/
def specCreate : SecretSpec :=
  { secretName := "MySecret", secretValue := some "My_Pass_Sec",
    secretValidFrom := none, secretExpiry := none,
    keyvaultUri := "https://contoso.vault.azure.net/", state := "present",
    contentType := none, tags := [] }

/-- Concrete spec: ensure `MySecret` is absent. -/
def specDelete : SecretSpec :=
  { secretName := "MySecret", secretValue := none,
    secretValidFrom := none, secretExpiry := none,
    keyvaultUri := "https://contoso.vault.azure.net/", state := "absent",
    contentType := none, tags := [] }

/-- Concrete spec: like `specCreate` but with value `MyValue`. -/
def specKeepVal : SecretSpec :=
  { specCreate with secretValue := some "MyValue" }

/-- Concrete spec: ensure absence, with an unparsable non-empty
`secret_valid_from` string. -/
def specBadDate : SecretSpec :=
  { specDelete with secretValidFrom := some "not-a-date" }

/-- The invocation outcome of running `specCreate` against an empty vault
outside check mode: create write issued, value stored. -/
def er1Created : ExecOut :=
  { result :=
      { changed := true,
        state :=
          { secretId :=
              some (mkSecretId specCreate.keyvaultUri specCreate.secretName),
            secretValue := none, status := some "Created" } },
    vault := some "My_Pass_Sec",
    writes := [.setSecret specCreate.keyvaultUri specCreate.secretName
                 (some "My_Pass_Sec") [] none none none] }

/-- The invocation outcome of running `specCreate` against an empty vault in
check mode: no write, prospective `Created` status. -/
def checkModeOut : ExecOut :=
  { result :=
      { changed := true,
        state := { secretId := none, secretValue := none,
                   status := some "Created" } },
    vault := none, writes := [] }

/-- The invocation outcome of a no-op run of `specKeepVal` against a vault
already holding `MyValue`. -/
def noopValOut : ExecOut :=
  { result :=
      { changed := false,
        state :=
          { secretId :=
              some (mkSecretId specKeepVal.keyvaultUri specKeepVal.secretName),
            secretValue := some "MyValue", status := none } },
    vault := some "MyValue", writes := [] }

/-- The invocation outcome of a no-op run of `specEmptyVal` against a vault
holding `x`. -/
def noopOut : ExecOut :=
  { result :=
      { changed := false,
        state :=
          { secretId :=
              some (mkSecretId specEmptyVal.keyvaultUri specEmptyVal.secretName),
            secretValue := some "x", status := none } },
    vault := some "x", writes := [] }

/-! ## Helper lemmas -/

theorem readBranch_readVault (spec : SecretSpec) (vault : Option String) :
    readBranch spec (readVault spec vault) =
      .ok (happyDict spec vault, moduleChanged spec vault) := by
  cases vault with
  | none => rfl
  | some w =>
    cases hsv : spec.secretValue with
    | none =>
      simp only [readBranch, readVault, happyDict, moduleChanged, hsv]
      split <;> rfl
    | some sv =>
      simp only [readBranch, readVault, happyDict, moduleChanged, hsv]
      split
      · rfl
      · cases h : (sv != "" && w != sv) <;> simp [h]

theorem parseDateField_ok_of_not_bad (dparse : String → Option Nat)
    (field : Option String) (h : badDate dparse field = false) :
    ∃ v, parseDateField dparse field = .ok v := by
  cases field with
  | none => exact ⟨none, rfl⟩
  | some s =>
    simp only [badDate, Bool.and_eq_false_iff, bne_eq_false_iff_eq,
      Option.isNone_eq_false_iff] at h
    simp only [parseDateField]
    rcases h with h | h
    · exact ⟨none, by simp [h]⟩
    · rcases Option.isSome_iff_exists.mp h with ⟨d, hd⟩
      refine ⟨if s == "" then none else some d, ?_⟩
      split
      · rfl
      · simp [hd]

theorem parseDateField_bad_of_ok (dparse : String → Option Nat)
    (field : Option String) (v : Option Nat)
    (h : parseDateField dparse field = .ok v) :
    badDate dparse field = false := by
  cases field with
  | none => rfl
  | some s =>
    simp only [parseDateField] at h
    simp only [badDate, Bool.and_eq_false_iff]
    by_cases hs : s = ""
    · left
      simp [hs]
    · right
      cases hd : dparse s with
      | none => simp [hs, hd] at h
      | some d => simp [hd]

theorem exec_module_of_parses (dparse : String → Option Nat)
    (spec : SecretSpec) (vault : Option String) (checkMode : Bool)
    (vf ex : Option Nat)
    (hvf : parseDateField dparse spec.secretValidFrom = .ok vf)
    (hex : parseDateField dparse spec.secretExpiry = .ok ex) :
    exec_module dparse spec vault checkMode =
      .ok (writePhase spec (happyDict spec vault) (moduleChanged spec vault)
        vault checkMode vf ex) := by
  simp only [exec_module, execCore, readBranch_readVault, hvf, hex]

theorem exec_module_ok_inv (dparse : String → Option Nat)
    (spec : SecretSpec) (vault : Option String) (checkMode : Bool)
    (er : ExecOut) (h : exec_module dparse spec vault checkMode = .ok er) :
    ∃ vf ex, parseDateField dparse spec.secretValidFrom = .ok vf ∧
      parseDateField dparse spec.secretExpiry = .ok ex ∧
      er = writePhase spec (happyDict spec vault) (moduleChanged spec vault)
        vault checkMode vf ex := by
  simp only [exec_module, execCore, readBranch_readVault] at h
  cases hvf : parseDateField dparse spec.secretValidFrom with
  | error e => simp [hvf] at h
  | ok vf =>
    cases hex : parseDateField dparse spec.secretExpiry with
    | error e => simp [hvf, hex] at h
    | ok ex =>
      simp only [hvf, hex, Except.ok.injEq] at h
      exact ⟨vf, ex, rfl, rfl, h.symm⟩

theorem parseDateField_error_of_bad (dparse : String → Option Nat)
    (field : Option String) (h : badDate dparse field = true) :
    ∃ s, parseDateField dparse field = .error (.valueError s) := by
  cases field with
  | none => simp [badDate] at h
  | some s =>
    simp only [badDate, Bool.and_eq_true, bne_iff_ne, ne_eq,
      Option.isNone_iff_eq_none] at h
    refine ⟨s, ?_⟩
    simp [parseDateField, h.1, h.2]

theorem writePhase_state_secretValue (spec : SecretSpec) (results : StateDict)
    (changed : Bool) (vault : Option String) (checkMode : Bool)
    (vf ex : Option Nat) :
    (writePhase spec results changed vault checkMode vf ex).result.state.secretValue =
      results.secretValue := by
  simp only [writePhase]
  split <;> split <;> first | rfl | (split <;> rfl)

theorem writePhase_changed (spec : SecretSpec) (results : StateDict)
    (changed : Bool) (vault : Option String) (checkMode : Bool)
    (vf ex : Option Nat) :
    (writePhase spec results changed vault checkMode vf ex).result.changed =
      changed := by
  simp only [writePhase]
  split <;> split <;> first | rfl | (split <;> rfl)

theorem writePhase_not_changed (spec : SecretSpec) (results : StateDict)
    (vault : Option String) (checkMode : Bool) (vf ex : Option Nat) :
    writePhase spec results false vault checkMode vf ex =
      { result := { changed := false, state := results },
        vault := vault, writes := [] } := by
  cases checkMode <;> simp [writePhase]

theorem happyDict_secretValue (spec : SecretSpec) (vault : Option String) :
    (happyDict spec vault).secretValue = vault := by
  cases vault <;> rfl

theorem moduleChanged_converges (spec : SecretSpec) (vault : Option String)
    (vf ex : Option Nat)
    (hstate : spec.state = "present" ∨ spec.state = "absent") :
    moduleChanged spec
      (writePhase spec (happyDict spec vault) (moduleChanged spec vault)
        vault false vf ex).vault = false := by
  rcases hstate with h1 | h1
  · cases hc : moduleChanged spec vault
    · simp [writePhase, h1, hc]
    · cases hsv : spec.secretValue <;>
        simp [writePhase, moduleChanged, h1, hc, hsv]
  · cases hc : moduleChanged spec vault
    · simp [writePhase, h1, hc]
    · simp [writePhase, moduleChanged, h1, hc]

/-! ## Claims -/

/-- C1 counterexample: with presence=present, a supplied empty-string value,
and a remote secret whose stored value `x` differs from it, the code computes
`changed = false` (the truthiness guard skips the comparison) while the
claim's formula `claimChanged` requires `changed = true`. -/
theorem C1_counterexample :
    moduleChanged specEmptyVal (some "x") = false ∧
    claimChanged specEmptyVal (some "x") = true := by
  constructor <;> rfl

/-- C1 (amended): for every spec with a declared state (`present` or
`absent`) and every remote state, the computed `changed` flag equals the
claim's formula amended with the truthiness guard: the value-difference
disjunct additionally requires the supplied value to be non-`None` and
non-empty (`claimChangedTruthy`). -/
theorem C1_changed_amended (spec : SecretSpec) (vault : Option String)
    (hstate : spec.state = "present" ∨ spec.state = "absent") :
    moduleChanged spec vault = claimChangedTruthy spec vault := by
  rcases hstate with h1 | h1 <;>
    cases vault with
    | none => simp [moduleChanged, claimChangedTruthy, h1]
    | some w =>
      cases hsv : spec.secretValue <;>
        simp [moduleChanged, claimChangedTruthy, pyTruthy, h1, hsv,
          Bool.and_assoc]

/-- C1 witness: the amended equivalence evaluated at `specEmptyVal` against
a vault holding `x`. -/
theorem C1_changed_amended_witness :
    moduleChanged specEmptyVal (some "x") =
      claimChangedTruthy specEmptyVal (some "x") :=
  C1_changed_amended specEmptyVal (some "x") (Or.inl rfl)

/-- C3 counterexample: with `auth_source = "msi"` and a failing MSI
acquisition, the code returns the callback-credential client even though the
CLI acquisition would succeed — `get_keyvault_client` never reaches the CLI
stage, while the claim's chain `claimResolveMsi` selects the CLI
credential. -/
theorem C3_counterexample :
    get_keyvault_client "msi" false true = ResolvedCred.callbackCred ∧
    claimResolveMsi false true = ResolvedCred.cliCred ∧
    ResolvedCred.callbackCred ≠ ResolvedCred.cliCred := by
  refine ⟨rfl, rfl, ?_⟩
  decide

/-- C3 (amended): with `auth_source = "msi"`, a managed-identity failure
falls through directly to the explicit service-principal callback credential
— the CLI-profile branch is guarded by `auth_source in ['auto', 'cli']` and
is never attempted — and the resolver does not abort before the
explicit-credential stage. -/
theorem C3_msi_falls_to_callback (cliOk : Bool) :
    get_keyvault_client "msi" false cliOk = ResolvedCred.callbackCred := by
  rfl

/-- C9: in the explicit service-principal branch, `auth_callback` fails when
the client id or the client secret is `None`; when both are present and no
tenant is configured, the credential is built with tenant `"common"`. -/
theorem C9_auth_callback (creds : AzureCredentials) :
    ((creds.clientId = none ∨ creds.secret = none) →
      authFails (auth_callback creds) = true) ∧
    (∀ cid sec, creds.clientId = some cid → creds.secret = some sec →
      creds.tenant = none →
      auth_callback creds =
        .ok { clientId := cid, secret := sec, tenant := "common" }) := by
  obtain ⟨cid0, sec0, ten0⟩ := creds
  refine ⟨?_, ?_⟩
  · rintro (h | h)
    · cases h
      cases sec0 <;> rfl
    · cases h
      cases cid0 <;> rfl
  · rintro cid sec h1 h2 h3
    cases h1
    cases h2
    cases h3
    rfl

/-- C9 witness: a missing client id fails, and explicit credentials with no
configured tenant resolve to tenant `"common"`. -/
theorem C9_auth_callback_witness :
    authFails (auth_callback ⟨none, some "s", some "t"⟩) = true ∧
    auth_callback ⟨some "id", some "sec", none⟩ =
      .ok { clientId := "id", secret := "sec", tenant := "common" } :=
  ⟨(C9_auth_callback ⟨none, some "s", some "t"⟩).1 (Or.inl rfl),
   (C9_auth_callback ⟨some "id", some "sec", none⟩).2 "id" "sec" rfl rfl rfl⟩

/-- C10: with state=present, a supplied empty-string secret value, and an
existing remote secret whose stored value differs from the empty string, the
computed `changed` is false and any completed invocation issues no write —
the value-difference test is skipped when the supplied value is falsy. -/
theorem C10_empty_value_no_change (dparse : String → Option Nat)
    (spec : SecretSpec) (w : String) (checkMode : Bool)
    (hstate : spec.state = "present") (hval : spec.secretValue = some "")
    (_hw : w ≠ "") :
    moduleChanged spec (some w) = false ∧
    ∀ er, exec_module dparse spec (some w) checkMode = .ok er →
      er.writes = [] ∧ er.result.changed = false := by
  have hch : moduleChanged spec (some w) = false := by
    simp [moduleChanged, hstate, hval]
  refine ⟨hch, ?_⟩
  intro er her
  obtain ⟨vf, ex, hvf, hex, hereq⟩ := exec_module_ok_inv _ _ _ _ _ her
  subst hereq
  rw [hch, writePhase_not_changed]
  exact ⟨rfl, rfl⟩

/-- C10 witness: `specEmptyVal` against a vault holding `x` computes
`changed = false`, completes, and issues no write. -/
theorem C10_empty_value_witness :
    moduleChanged specEmptyVal (some "x") = false ∧
    (noopOut.writes = [] ∧ noopOut.result.changed = false) :=
  have h :=
    C10_empty_value_no_change dparseAll specEmptyVal "x" false rfl rfl
      (by decide)
  ⟨h.1, h.2 noopOut rfl⟩

/-- C2: in check mode, every completed invocation issues no remote write and
leaves the remote vault state unchanged; when `changed` is true, the
result's status is set to the prospective label (`Created` for
state=present, `Deleted` for state=absent). -/
theorem C2_check_mode_no_write (dparse : String → Option Nat)
    (spec : SecretSpec) (vault : Option String) (er : ExecOut)
    (hstate : spec.state = "present" ∨ spec.state = "absent")
    (h : exec_module dparse spec vault true = .ok er) :
    er.writes = [] ∧ er.vault = vault ∧
      (er.result.changed = true →
        er.result.state.status =
          some (if spec.state == "present" then "Created" else "Deleted")) := by
  obtain ⟨vf, ex, hvf, hex, hereq⟩ := exec_module_ok_inv _ _ _ _ _ h
  subst hereq
  rcases hstate with h1 | h1 <;>
    cases hc : moduleChanged spec vault <;>
      simp [writePhase, h1, hc]

/-- C2 witness: `specCreate` in check mode against an empty vault: no write,
vault untouched, status set to the prospective `Created` label. -/
theorem C2_check_mode_witness :
    checkModeOut.writes = [] ∧ checkModeOut.vault = none ∧
      (checkModeOut.result.changed = true →
        checkModeOut.result.state.status =
          some (if specCreate.state == "present" then "Created"
                else "Deleted")) :=
  C2_check_mode_no_write dparseAll specCreate none checkModeOut (Or.inl rfl)
    rfl

/-- C4 counterexample: a no-op invocation against a vault holding `MyValue`
returns a state dictionary whose `secret_value` entry is the secret's value
— the fetched record, value included, is assigned to `self.results['state']`
— refuting the claim that the returned result never contains the value. -/
theorem C4_counterexample :
    stateValueOf (exec_module dparseAll specKeepVal (some "MyValue") false) =
      some (some "MyValue") := by
  rfl

/-- C4 (amended): the returned state's `secret_value` entry equals the
remote stored value option: it carries the fetched secret value whenever the
read found the secret, and is only absent when the secret was absent. -/
theorem C4_state_value_amended (dparse : String → Option Nat)
    (spec : SecretSpec) (vault : Option String) (checkMode : Bool)
    (er : ExecOut) (h : exec_module dparse spec vault checkMode = .ok er) :
    er.result.state.secretValue = vault := by
  obtain ⟨vf, ex, hvf, hex, hereq⟩ := exec_module_ok_inv _ _ _ _ _ h
  subst hereq
  rw [writePhase_state_secretValue, happyDict_secretValue]

/-- C4 witness: the amended statement evaluated on the no-op run of
`specKeepVal` against a vault holding `MyValue`. -/
theorem C4_state_value_witness :
    noopValOut.result.state.secretValue = some "MyValue" :=
  C4_state_value_amended dparseAll specKeepVal (some "MyValue") false
    noopValOut rfl

/-- C5 counterexample: with state=absent against an empty vault (so
`changed` is false) and check mode on (so the write path is never reached),
a non-empty unparsable `secret_valid_from` string still aborts the
invocation with the parse error — date parsing is not confined to the write
path. -/
theorem C5_counterexample :
    moduleChanged specBadDate none = false ∧
    exec_module dparseFail specBadDate none true =
      .error (.valueError "not-a-date") := by
  constructor <;> rfl

/-- C5 (amended): parsing of non-empty `valid_from`/`expiry` strings occurs
on every invocation, before the check-mode and `changed` branches: the
invocation aborts with a parse error exactly when some non-empty date string
is unparsable, regardless of `changed`, presence, and dry-run; empty or
absent date strings are skipped without error. -/
theorem C5_parse_on_every_path (dparse : String → Option Nat)
    (spec : SecretSpec) (vault : Option String) (checkMode : Bool) :
    isError (exec_module dparse spec vault checkMode) =
      (badDate dparse spec.secretValidFrom ||
        badDate dparse spec.secretExpiry) := by
  cases hvf : badDate dparse spec.secretValidFrom with
  | false =>
    obtain ⟨vf, h1⟩ := parseDateField_ok_of_not_bad dparse _ hvf
    cases hex : badDate dparse spec.secretExpiry with
    | false =>
      obtain ⟨ex, h2⟩ := parseDateField_ok_of_not_bad dparse _ hex
      simp [exec_module, execCore, readBranch_readVault, h1, h2, isError]
    | true =>
      obtain ⟨s, h2⟩ := parseDateField_error_of_bad dparse _ hex
      simp [exec_module, execCore, readBranch_readVault, h1, h2, isError]
  | true =>
    obtain ⟨s, h1⟩ := parseDateField_error_of_bad dparse _ hvf
    simp [exec_module, execCore, readBranch_readVault, h1, isError]

/-- C6 counterexample: a read that raises a `KeyVaultErrorException`
reporting a condition other than not-found (for example an authorization
failure, `notFound = false`) is caught rather than propagated: the
invocation completes and treats the secret as absent, computing
`changed = true` for a present-spec. -/
theorem C6_counterexample :
    isError (execCore dparseAll specCreate
      (ReadOutcome.exc (PyExc.keyVaultError false)) none false) = false ∧
    changedFlagOf (execCore dparseAll specCreate
      (ReadOutcome.exc (PyExc.keyVaultError false)) none false) =
      some true := by
  constructor <;> rfl

/-- C6 (amended): the `except` clause catches the whole
`KeyVaultErrorException` class — every service-reported failure of the read,
not only the not-found outcome — and converts it into the absent case of the
`changed` computation; only exceptions outside that class abort the
invocation and propagate to the caller. -/
theorem C6_catch_amended (dparse : String → Option Nat) (spec : SecretSpec)
    (vault : Option String) (checkMode : Bool) (msg : String) (nf : Bool)
    (hvf : badDate dparse spec.secretValidFrom = false)
    (hex : badDate dparse spec.secretExpiry = false) :
    execCore dparse spec (.exc (.other msg)) vault checkMode =
      .error (.other msg) ∧
    isError (execCore dparse spec (.exc (.keyVaultError nf)) vault
      checkMode) = false ∧
    changedFlagOf (execCore dparse spec (.exc (.keyVaultError nf)) vault
      checkMode) = some (spec.state == "present") := by
  obtain ⟨vf, h1⟩ := parseDateField_ok_of_not_bad dparse _ hvf
  obtain ⟨ex, h2⟩ := parseDateField_ok_of_not_bad dparse _ hex
  refine ⟨rfl, ?_, ?_⟩
  · simp [execCore, readBranch, h1, h2, isError]
  · simp [execCore, readBranch, h1, h2, changedFlagOf, writePhase_changed]

/-- C6 witness: a non-vault exception propagates, and a non-not-found
`KeyVaultErrorException` is swallowed with `changed` computed from the
declared state. -/
theorem C6_catch_witness :
    execCore dparseAll specCreate (.exc (.other "boom")) none false =
      .error (.other "boom") ∧
    isError (execCore dparseAll specCreate (.exc (.keyVaultError false))
      none true) = false ∧
    changedFlagOf (execCore dparseAll specCreate
      (.exc (.keyVaultError false)) none true) =
      some (specCreate.state == "present") :=
  C6_catch_amended dparseAll specCreate none true "boom" false rfl rfl

/-- C7: reconciliation is idempotent: if a non-check-mode invocation
completes with outcome `er1`, running the identical spec again against the
remote state `er1.vault` left by the first run completes with
`changed = false`, no write issued, and the vault untouched (the second
outcome is exactly the no-op outcome). -/
theorem C7_idempotent (dparse : String → Option Nat) (spec : SecretSpec)
    (vault : Option String) (er1 : ExecOut)
    (hstate : spec.state = "present" ∨ spec.state = "absent")
    (h : exec_module dparse spec vault false = .ok er1) :
    exec_module dparse spec er1.vault false =
      .ok { result := { changed := false, state := happyDict spec er1.vault },
            vault := er1.vault, writes := [] } := by
  obtain ⟨vf, ex, h1, h2, hereq⟩ := exec_module_ok_inv _ _ _ _ _ h
  have hconv : moduleChanged spec er1.vault = false := by
    rw [hereq]
    exact moduleChanged_converges spec vault vf ex hstate
  rw [exec_module_of_parses dparse spec er1.vault false vf ex h1 h2, hconv,
    writePhase_not_changed]

/-- C7 witness: creating `MySecret` in an empty vault and re-running the
identical spec yields the no-op outcome on the second run. -/
theorem C7_idempotent_witness :
    exec_module dparseAll specCreate er1Created.vault false =
      .ok { result :=
              { changed := false,
                state := happyDict specCreate er1Created.vault },
            vault := er1Created.vault, writes := [] } :=
  C7_idempotent dparseAll specCreate none er1Created (Or.inl rfl) rfl

/-- C8: for every spec with state=absent against a vault with no such
secret, the invocation (with parseable date fields, in or out of check
mode) completes with `changed = false`, issues no remote write, and leaves
the vault empty. -/
theorem C8_absent_nonexistent (dparse : String → Option Nat)
    (spec : SecretSpec) (checkMode : Bool)
    (hstate : spec.state = "absent")
    (hvf : badDate dparse spec.secretValidFrom = false)
    (hex : badDate dparse spec.secretExpiry = false) :
    exec_module dparse spec none checkMode =
      .ok { result :=
              { changed := false,
                state := { secretId := none, secretValue := none,
                           status := none } },
            vault := none, writes := [] } := by
  obtain ⟨vf, h1⟩ := parseDateField_ok_of_not_bad dparse _ hvf
  obtain ⟨ex, h2⟩ := parseDateField_ok_of_not_bad dparse _ hex
  rw [exec_module_of_parses dparse spec none checkMode vf ex h1 h2]
  have hch : moduleChanged spec none = false := by
    simp [moduleChanged, hstate]
  rw [hch, writePhase_not_changed]
  rfl

/-- C8 witness: deleting a non-existent `MySecret` is a no-op. -/
theorem C8_absent_witness :
    exec_module dparseAll specDelete none false =
      .ok { result :=
              { changed := false,
                state := { secretId := none, secretValue := none,
                           status := none } },
            vault := none, writes := [] } :=
  C8_absent_nonexistent dparseAll specDelete false rfl rfl rfl
